import Mathlib

/-!
Shallow embedding of `ospd_openvas/wrapper.py` (class `OSPDopenvas` of the
ospd-openvas daemon) and theorems checking its natural-language
specification against the code.  Python dictionaries are modelled as
association lists with distinct keys, machine strings as `String`,
fallible code as `Except`, and the float arithmetic of the progress
calculation exactly over `ℚ`.  Line numbers in doc comments refer to
`src/ospd_openvas/wrapper.py`.
-/

/-- Model of the Python runtime errors the translated code can raise. -/
inductive PyErr where
  | keyError
  | nameError
  | valueError
  | zeroDivisionError
  deriving DecidableEq, Repr

/-- Equality of `Except` values is decidable when it is for both
components (used to evaluate the embedded functions on concrete
inputs). -/
instance {ε α : Type} [DecidableEq ε] [DecidableEq α] : DecidableEq (Except ε α) :=
  fun a b =>
    match a, b with
    | .error e, .error f => decidable_of_iff (e = f) (by simp)
    | .ok x, .ok y => decidable_of_iff (x = y) (by simp)
    | .error _, .ok _ => isFalse (by simp)
    | .ok _, .error _ => isFalse (by simp)

/-- Model of the Python values that flow through the translated code:
strings and integers. -/
inductive PyVal where
  | pstr (s : String)
  | pint (n : Int)
  deriving DecidableEq, Repr

/-- Python `str(value)` for the modelled values. -/
def pyToString : PyVal → String
  | .pstr s => s
  | .pint n => toString n

/-- Python `isinstance(value, str)`. -/
def PyVal.isStr : PyVal → Bool
  | .pstr _ => true
  | .pint _ => false

/-- Drop leading and trailing whitespace from a character list
(Python's `int` ignores surrounding whitespace). -/
def trimList (l : List Char) : List Char :=
  ((l.dropWhile Char.isWhitespace).reverse.dropWhile Char.isWhitespace).reverse

/-- Whether Python `int(s)` succeeds on a string: optional surrounding
whitespace, an optional sign, then a nonempty run of decimal digits
(underscore digit separators are not modelled). -/
def intStringOk (s : String) : Bool :=
  let l := trimList s.data
  let core := match l with
    | c :: rest => if c = '-' ∨ c = '+' then rest else l
    | [] => []
  !core.isEmpty && core.all Char.isDigit

/-- Whether Python `int(value)` succeeds for the modelled values. -/
def pyIntOk : PyVal → Bool
  | .pint _ => true
  | .pstr s => intStringOk s

/-- `OSPDopenvas.check_param_type` (wrapper.py:831-852).  `none` models
the Python `None` return (value matches the type), `some 1` the `1`
return (mismatch). -/
def check_param_type (vt_param_value : PyVal) (param_type : String) : Option Nat :=
  if (param_type = "entry" ∨ param_type = "file" ∨ param_type = "password" ∨
      param_type = "radio" ∨ param_type = "sshlogin") ∧ vt_param_value.isStr then
    none
  else if param_type = "checkbox" ∧
      (vt_param_value = .pstr "yes" ∨ vt_param_value = .pstr "no") then
    none
  else if param_type = "integer" then
    if pyIntOk vt_param_value then none else some 1
  else
    some 1

/-- One credential entry: the values read from the per-service dict via
`cred_params.get(key, '')`, with `""` standing for an absent key.  The
source key `private` is a Lean keyword, hence the guillemets. -/
structure Cred where
  type : String := ""
  username : String := ""
  password : String := ""
  port : String := ""
  «private» : String := ""
  community : String := ""
  auth_algorithm : String := ""
  privacy_password : String := ""
  privacy_algorithm : String := ""
  deriving DecidableEq, Repr

/-- `OSPDopenvas.build_credentials_as_prefs` (wrapper.py:885-957).  The
credential dictionary is an association list with distinct service keys
(a Python dict), iterated in insertion order; `credentials.get(service)`
is each entry's own value.  The string concatenations reproduce the
source literals exactly, including the missing `|||` delimiter in the
snmp records (wrapper.py:938-955). -/
def build_credentials_as_prefs (credentials : List (String × Cred)) : List String :=
  credentials.flatMap fun credential =>
    let service := credential.1
    let cred_params := credential.2
    let cred_type := cred_params.type
    let username := cred_params.username
    let password := cred_params.password
    (if service = "ssh" then
      ["auth_port_ssh|||" ++ cred_params.port,
       "SSH Authorization[entry]:SSH login name:|||" ++ username] ++
      (if cred_type = "up" then
        ["SSH Authorization[password]:SSH password (unsafe!):|||" ++ password]
      else
        ["SSH Authorization[password]:SSH key passphrase:|||" ++ password,
         "SSH Authorization[file]:SSH private key:|||" ++ cred_params.«private»])
    else []) ++
    (if service = "smb" then
      ["SMB Authorization[entry]:SMB login:|||" ++ username,
       "SMB Authorization[password]:SMB password :|||" ++ password]
    else []) ++
    (if service = "esxi" then
      ["ESXi Authorization[entry]:ESXi login name:|||" ++ username,
       "ESXi Authorization[password]:ESXi login password:|||" ++ password]
    else []) ++
    (if service = "snmp" then
      ["SNMP Authorization[password]:SNMP Community:" ++ cred_params.community,
       "SNMP Authorization[entry]:SNMPv3 Username:" ++ username,
       "SNMP Authorization[password]:SNMPv3 Password:" ++ password,
       "SNMP Authorization[radio]:SNMPv3 Authentication Algorithm:" ++
         cred_params.auth_algorithm,
       "SNMP Authorization[password]:SNMPv3 Privacy Password:" ++
         cred_params.privacy_password,
       "SNMP Authorization[radio]:SNMPv3 Privacy Algorithm:" ++
         cred_params.privacy_algorithm]
    else [])

/-- The services `build_credentials_as_prefs` emits records for. -/
def knownService (s : String) : Bool :=
  s = "ssh" || s = "smb" || s = "esxi" || s = "snmp"

/-- `s.split(sep)` for a single-character separator, on character lists
(Python `str.split` with an explicit separator, so `""` yields `[""]`
and a trailing separator yields a trailing empty field). -/
def splitChar (sep : Char) : List Char → List (List Char)
  | [] => [[]]
  | c :: rest =>
    if c = sep then [] :: splitChar sep rest
    else match splitChar sep rest with
      | g :: gs => (c :: g) :: gs
      | [] => [[c]]

/-- `s.split(sep)` for a two-character separator, on character lists. -/
def splitTwo (a b : Char) : List Char → List (List Char)
  | [] => [[]]
  | [c] => [[c]]
  | c :: d :: rest =>
    if c = a ∧ d = b then [] :: splitTwo a b rest
    else match splitTwo a b (d :: rest) with
      | g :: gs => (c :: g) :: gs
      | [] => [[c]]

/-- Whether `pat` occurs as a contiguous subsequence of `l`. -/
def containsSeq (pat : List Char) : List Char → Bool
  | [] => pat.isEmpty
  | c :: rest => pat.isPrefixOf (c :: rest) || containsSeq pat rest

/-- Whether a preference string contains the `|||` name/value delimiter. -/
def hasTripleBar (s : String) : Bool :=
  containsSeq "|||".data s.data

/-- Numeric value of a digit-character list, most significant first. -/
def digitsToNat (l : List Char) : Nat :=
  l.foldl (fun n c => n * 10 + (c.toNat - '0'.toNat)) 0

/-- Python `float(s)` on the decimal integer counters the engine emits in
its `launched/total` status messages, modelled exactly: `none` when the
parse would raise `ValueError`.  (Fractional float syntax never occurs
in these counters and is not modelled.) -/
def parseCounter (l : List Char) : Option Nat :=
  let t := trimList l
  if !t.isEmpty && t.all Char.isDigit then some (digitsToNat t) else none

/-- `OSPDopenvas.update_progress` (wrapper.py:643-663).  Returns the
value handed to `set_scan_target_progress`; `.ok none` models the early
returns (malformed split, zero total).  `total_host` is
`len(target_str_to_list(target))`, supplied by the caller's framework.
The dict `host_progress_dict` holds exactly the one entry written just
above, so the "average" is that entry divided by `total_host`.  Float
arithmetic is modelled exactly over `ℚ`. -/
def update_progress (msg : String) (total_host : Nat) : Except PyErr (Option ℚ) :=
  match splitChar '/' msg.data with
  | [launched, total] =>
    match parseCounter total with
    | none => .error .valueError
    | some t =>
      if t = 0 then .ok none
      else match parseCounter launched with
        | none => .error .valueError
        | some l =>
          if total_host = 0 then .error .zeroDivisionError
          else .ok (some ((l : ℚ) / (t : ℚ) * 100 / (total_host : ℚ)))
  | _ => .ok none

/-- A declared VT parameter: the `{type, name, default}` dict stored
under a parameter id in a VT's `vt_params` table (`type` is a Lean
soft keyword, hence `ptype`). -/
structure VtParam where
  ptype : String
  pname : String := ""
  default : String := ""
  deriving DecidableEq, Repr

/-- An entry of the in-memory VT table `self.vts`, restricted to the
fields the modelled operations read: `name` (wrapper.py:865), the
`custom` metadata dict with its `family` key (wrapper.py:813), and the
`vt_params` type table (wrapper.py:826-828).  The remaining display
fields of an entry are never read by the code modelled here. -/
structure Vt where
  name : String
  custom : List (String × String) := []
  vt_params : List (String × VtParam) := []
  deriving DecidableEq, Repr

/-- `OSPDopenvas.get_vt_param_type` (wrapper.py:824-829).  `self.vts[vtid]`
raises `KeyError` on a missing OID; a missing parameter id returns the
Python `False`, modelled as `none`. -/
def get_vt_param_type (vts : List (String × Vt)) (vtid vt_param_id : String) :
    Except PyErr (Option String) :=
  match List.lookup vtid vts with
  | none => .error .keyError
  | some vt =>
    match List.lookup vt_param_id vt.vt_params with
    | some p => .ok (some p.ptype)
    | none => .ok none

/-- Append `oid` to the group of `fam` in the families dict, creating the
group at the end on first sight (Python dict insertion order). -/
def addFam : List (Option String × List String) → Option String → String →
    List (Option String × List String)
  | [], fam, oid => [(fam, [oid])]
  | (f, oids) :: rest, fam, oid =>
    if f = fam then (f, oids ++ [oid]) :: rest
    else (f, oids) :: addFam rest fam oid

/-- The `families` dict built by `get_vts_in_groups` (wrapper.py:810-816):
OIDs of the VT table grouped by their `custom.get('family')`. -/
def familiesOf (vts : List (String × Vt)) : List (Option String × List String) :=
  vts.foldl (fun families p => addFam families (List.lookup "family" p.2.custom) p.1) []

/-- `OSPDopenvas.get_vts_in_groups` (wrapper.py:802-822).  Each filter is
split on `=`; the unpacking `key, value = elem.split('=')` raises
`ValueError` unless that yields exactly two parts. -/
def get_vts_in_groups (vts : List (String × Vt)) (filters : List String) :
    Except PyErr (List String) :=
  filters.foldlM (fun vts_list elem =>
    match splitChar '=' elem.data with
    | [key, value] =>
      if key = "family".data then
        match List.lookup (some (String.mk value)) (familiesOf vts) with
        | some oids => .ok (vts_list ++ oids)
        | none => .ok vts_list
      else .ok vts_list
    | _ => .error .valueError) []

/-- The debug log lines `process_vts` can emit for a parameter
(wrapper.py:869-871 and 877-878). -/
inductive PvLog where
  | notLoaded (vt_param_id vtid : String)
  | typeMismatch (expected : String) (value : String)
  deriving DecidableEq, Repr

/-- What `process_vts` produces: the selected OID list, the preference
name/value pairs, plus the debug log lines emitted on the way. -/
structure ProcOut where
  vts_list : List String
  vts_params : List (String × String)
  logs : List PvLog
  deriving DecidableEq, Repr

/-- Body of the inner parameter loop of `process_vts` (wrapper.py:866-882)
for one `(vt_param_id, vt_param_value)` item: the preference pairs and
log lines it contributes.  A `False` or empty type from
`get_vt_param_type` is skipped (`if not param_type`); the value of a
parameter named `timeout` is checked as `integer` instead of its
declared type; the emitted record keeps the declared type. -/
def procParam (vts : List (String × Vt)) (vtid nvt_name vt_param_id : String)
    (vt_param_value : PyVal) :
    Except PyErr (List (String × String) × List PvLog) := do
  let param_type ← get_vt_param_type vts vtid vt_param_id
  match param_type with
  | none => pure ([], [.notLoaded vt_param_id vtid])
  | some pt =>
    if pt = "" then pure ([], [.notLoaded vt_param_id vtid])
    else
      let type_aux := if vt_param_id = "timeout" then "integer" else pt
      let logs := match check_param_type vt_param_value type_aux with
        | some _ => [PvLog.typeMismatch type_aux (pyToString vt_param_value)]
        | none => []
      pure ([(nvt_name ++ "[" ++ pt ++ "]:" ++ vt_param_id,
              pyToString vt_param_value)], logs)

/-- The inner parameter loop of `process_vts` over all items of one VT's
parameter dict, in order. -/
def procParams (vts : List (String × Vt)) (vtid nvt_name : String) :
    List (String × PyVal) → Except PyErr (List (String × String) × List PvLog)
  | [] => pure ([], [])
  | (pid, pval) :: rest => do
    let (ps, ls) ← procParam vts vtid nvt_name pid pval
    let (ps2, ls2) ← procParams vts vtid nvt_name rest
    pure (ps ++ ps2, ls ++ ls2)

/-- The `vts` argument of `process_vts` after the `vts.pop('vt_groups')`
(wrapper.py:858): the popped group filter list and the remaining
(OID → parameter dict) items. -/
structure NvtsSel where
  vt_groups : List String
  vts : List (String × List (String × PyVal))
  deriving DecidableEq, Repr

/-- The outer loop of `process_vts` (wrapper.py:863-882): appends each
selected OID, reads its name from `self.vts[vtid]` (`KeyError` when the
OID is not in the table), and processes its parameters. -/
def procVtsItems (table : List (String × Vt)) :
    List (String × List (String × PyVal)) →
    Except PyErr (List String × List (String × String) × List PvLog)
  | [] => pure ([], [], [])
  | (vtid, vt_params) :: rest => do
    let vt ← match List.lookup vtid table with
      | some vt => Except.ok vt
      | none => Except.error PyErr.keyError
    let (ps, ls) ← procParams table vtid vt.name vt_params
    let (ids, ps2, ls2) ← procVtsItems table rest
    pure (vtid :: ids, ps ++ ps2, ls ++ ls2)

/-- `OSPDopenvas.process_vts` (wrapper.py:854-883).  The group filters
are resolved first (`if vtgroups:` is false for an empty list), then
each explicitly selected OID is appended with its parameters. -/
def process_vts (table : List (String × Vt)) (sel : NvtsSel) : Except PyErr ProcOut := do
  let base ← if sel.vt_groups.isEmpty then pure []
             else get_vts_in_groups table sel.vt_groups
  let (ids, ps, ls) ← procVtsItems table sel.vts
  pure ⟨base ++ ids, ps, ls⟩

/-- Python `dict.pop(key)` on an association-list dict: the value and the
dict with that binding removed, or `none` when the key is absent (a
`KeyError` at the call sites that use the one-argument form). -/
def popKey (key : String) : List (String × String) →
    Option (String × List (String × String))
  | [] => none
  | (k, v) :: rest =>
    if k = key then some (v, rest)
    else match popKey key rest with
      | some (v2, rest2) => some (v2, (k, v) :: rest2)
      | none => none

/-- `custom.pop(key)` where the key must exist (`KeyError` otherwise). -/
def popReq (key : String) (c : List (String × String)) :
    Except PyErr (String × List (String × String)) :=
  match popKey key c with
  | some r => .ok r
  | none => .error .keyError

/-- `if key in custom: x = custom.pop(key)`: the optional value and the
remaining dict. -/
def popOpt (key : String) (c : List (String × String)) :
    Option String × List (String × String) :=
  match popKey key c with
  | some (v, c2) => (some v, c2)
  | none => (none, c)

/-- One VT as read from the NVTI cache store: the key returned by
`get_oids` (already carrying the `filename:` prefix), the OID, and the
per-OID data returned by `get_nvt_params` / `get_nvt_refs` /
`get_nvt_metadata`. -/
structure StoreVt where
  filename : String
  oid : String
  vt_params : List (String × VtParam) := []
  vt_refs : List (String × List String) := []
  custom : List (String × String)
  deriving DecidableEq, Repr

/-- The NVTI cache store as seen by `load_vts` and `check_feed`: the
feed version token and the enumerated VTs. -/
structure NvtiStore where
  feed_version : String
  items : List StoreVt
  deriving DecidableEq, Repr

/-- The arguments `load_vts` passes to `add_vt` for one VT
(wrapper.py:357-376). -/
structure VtRecord where
  name : String
  vt_params : List (String × VtParam)
  vt_refs : List (String × List String)
  custom : List (String × String)
  vt_creation_time : String
  vt_modification_time : String
  vt_dependencies : List (Option String)
  summary : Option String
  impact : Option String
  affected : Option String
  insight : Option String
  solution : Option String
  solution_t : Option String
  detection : Option String
  qod_t : Option String
  qod_v : Option String
  severities : List (String × String)
  deriving DecidableEq, Repr

/-- Python `dict(pairs).get(key)`: `dict()` keeps the last value of a
duplicated key, so look the key up in the reversed list. -/
def dictGet (pairs : List (String × String)) (key : String) : Option String :=
  List.lookup key pairs.reverse

/-- The per-VT body of the `load_vts` loop (wrapper.py:298-376): the
popping of the custom metadata dict into typed fields.  At
wrapper.py:342-343, when the metadata contains a `severity_type` key the
source reads the undefined name `custom` (instead of `_custom`), which
raises `NameError`; this is modelled as `.error .nameError`. -/
def parseStoreVt (oids : List (String × String)) (item : StoreVt) :
    Except PyErr VtRecord := do
  let (vname, c) ← popReq "name" item.custom
  let (vct, c) ← popReq "creation_date" c
  let (vmt, c) ← popReq "last_modification" c
  let (vsummary, c) := popOpt "summary" c
  let (vimpact, c) := popOpt "impact" c
  let (vaffected, c) := popOpt "affected" c
  let (vinsight, c) := popOpt "insight" c
  let (vsolution, c) := popOpt "solution" c
  let (vsolution_t, c) := if vsolution.isSome then popOpt "solution_type" c
                          else (none, c)
  let (vvuldetect, c) := popOpt "vuldetect" c
  let (vqod_t, c) := popOpt "qod_type" c
  let (vqod_v, c) := if vqod_t.isSome then (none, c) else popOpt "qod" c
  let (vvector, c) ← match popKey "severity_base_vector" c with
    | some r => Except.ok r
    | none => popReq "cvss_base_vector" c
  if (List.lookup "severity_type" c).isSome then
    Except.error PyErr.nameError
  else
    let (vorigin, c) := popOpt "severity_origin" c
    let severities :=
      [("severity_base_vector", vvector), ("severity_type", "cvss_base_v2")] ++
      (match vorigin with
       | some o => [("severity_origin", o)]
       | none => [])
    let (vdeps, c) := popOpt "dependencies" c
    let vt_dependencies := match vdeps with
      | some d => ((splitTwo ',' ' ' d.data).map String.mk).map
          (fun dep => dictGet oids ("filename:" ++ dep))
      | none => []
    pure { name := vname, vt_params := item.vt_params, vt_refs := item.vt_refs,
           custom := c, vt_creation_time := vct, vt_modification_time := vmt,
           vt_dependencies := vt_dependencies, summary := vsummary,
           impact := vimpact, affected := vaffected, insight := vinsight,
           solution := vsolution, solution_t := vsolution_t,
           detection := vvuldetect, qod_t := vqod_t, qod_v := vqod_v,
           severities := severities }

/-- Modelled from the spec: `OSPDaemon.add_vt` lives in the external ospd
framework package, not in this repository's source.  Per the spec's data
model, "malformed OID or duplicate OID is rejected without aborting the
bulk load"; the return codes -1 (duplicate, wrapper.py:377) and
-2 (invalid OID, wrapper.py:379) are only logged by the caller. -/
def add_vt (vts : List (String × VtRecord)) (vt_id : String) (r : VtRecord) :
    List (String × VtRecord) × Int :=
  if vt_id = "" then (vts, -2)
  else if (List.lookup vt_id vts).isSome then (vts, -1)
  else (vts ++ [(vt_id, r)], 0)

/-- The enumeration loop of `load_vts` (wrapper.py:298-380) over the
store's VTs, threading the growing table through `add_vt`. -/
def loadVtsItems (oids : List (String × String)) (vts : List (String × VtRecord)) :
    List StoreVt → Except PyErr (List (String × VtRecord))
  | [] => pure vts
  | item :: rest => do
    let r ← parseStoreVt oids item
    let (vts2, _ret) := add_vt vts item.oid r
    loadVtsItems oids vts2 rest

/-- `OSPDopenvas.load_vts` (wrapper.py:293-385): enumerates the store's
OIDs, adds every parsed VT to the table `vts0`, and finishes by
returning the new table together with the feed version that
`set_vts_version` records (the source also clears `pending_feed`;
`check_feed` below applies that effect). -/
def load_vts (vts0 : List (String × VtRecord)) (store : NvtiStore) :
    Except PyErr (List (String × VtRecord) × String) := do
  let oids := store.items.map (fun i => (i.filename, i.oid))
  let table ← loadVtsItems oids vts0 store.items
  pure (table, store.feed_version)

/-- The daemon state read and written by `check_feed`: the liveness of
each registered scan process, the pending flag, the cached VT table with
its version, and the store. -/
structure FeedState where
  scan_processes : List Bool
  pending_feed : Bool
  vts_version : String
  vts : List (String × VtRecord)
  store : NvtiStore
  deriving DecidableEq, Repr

/-- `OSPDopenvas.check_feed` (wrapper.py:264-287).  The returned `Bool`
records whether this tick performed the `self.pending_feed = True`
assignment (wrapper.py:281).  In the idle-and-stale branch the source
clears the table (`self.vts = dict()`) and reloads, and `load_vts`
itself stores the new version and clears the pending flag
(wrapper.py:382-384). -/
def check_feed (s : FeedState) : Except PyErr (FeedState × Bool) :=
  let running := s.scan_processes.any (fun b => b)
  let pending : Bool := if s.pending_feed then true
                        else s.vts_version != s.store.feed_version
  if running && pending then
    if !s.pending_feed then .ok ({ s with pending_feed := true }, true)
    else .ok (s, false)
  else if !running && pending then
    match load_vts [] s.store with
    | .ok (table, ver) =>
      .ok ({ s with vts := table, vts_version := ver, pending_feed := false }, false)
    | .error e => .error e
  else .ok (s, false)

/-- One auxiliary kb index as the polling sweep sees it: the index from
`internal/dbindex`, the value of its `internal/scan_id` key (`""` models
a missing key, the Python falsy case of wrapper.py:1092), and whether
`internal/<openvas_scan_id>` in that kb reads `finished`
(wrapper.py:1099). -/
structure AuxDb where
  idx : Nat
  scan_id : String
  finished : Bool
  deriving DecidableEq, Repr

/-- The shared-store state one iteration of the polling loop observes:
the `scan_is_stopped` check (wrapper.py:1081) and the `internal/dbindex`
snapshot with each listed kb's keys.  The store is mutated concurrently
by the engine, so each tick gets its own snapshot. -/
structure TickEnv where
  stopped : Bool
  dbs : List AuxDb
  deriving DecidableEq, Repr

/-- How the polling loop of `exec_scan` ends. -/
inductive LoopExit where
  | stopped
  | finished
  deriving DecidableEq, Repr

/-- The `while True` polling loop of `exec_scan` (wrapper.py:1076-1108),
driven by the per-tick store snapshots.  Mirrors the `no_id_found`
flag: it is reset during a sweep that finds a kb belonging to this
scan, checked after the sweep (`if no_id_found: break`), and set for
the next iteration.  Returns the exit reason (`none` when the provided
snapshots run out with the loop still running) and the number of
auxiliary kb indices released (wrapper.py:1103). -/
def pollLoop (openvas_scan_id : String) (main_kbindex : Nat) :
    Bool → List TickEnv → Option LoopExit × Nat
  | _, [] => (none, 0)
  | no_id_found, t :: rest =>
    if t.stopped then (some .stopped, 0)
    else
      let matching := t.dbs.filter fun d =>
        d.idx != main_kbindex && d.scan_id != "" && d.scan_id == openvas_scan_id
      let released := (matching.filter (fun d => d.finished)).length
      let nif := if matching.isEmpty then no_id_found else false
      if nif then (some .finished, released)
      else
        let (r, n) := pollLoop openvas_scan_id main_kbindex true rest
        (r, released + n)

/-- The Python values `exec_scan` returns: `2` for the soft failures,
`1` for stop/finish, `False` when spawning the engine raised `OSError`
(wrapper.py:969, 975, 1044, 1066, 1082, 1112). -/
inductive PyRet where
  | int (n : Nat)
  | bool (b : Bool)
  deriving DecidableEq, Repr

/-- Everything observable about one `exec_scan` run: its return value,
the `add_scan_error` values and `add_scan_log` (name, value) pairs it
recorded, whether `kb_new` allocated a session index and whether
`subprocess.Popen` was reached and succeeded, how many times
`release_db` was called on the main index and on auxiliary indices, the
polling-loop exit reason, and the records written to
`internal/<id>/scanprefs`. -/
structure ExecOutcome where
  ret : PyRet
  scan_errors : List String
  scan_logs : List (String × String)
  allocated : Bool
  spawned : Bool
  main_releases : Nat
  aux_releases : Nat
  exit_kind : Option LoopExit
  scanprefs : List String
  deriving DecidableEq, Repr

/-- The value `get_scan_vts` hands to `exec_scan`: the framework's empty
default `''` or a VT selection dict (compared with `nvts != ''` at
wrapper.py:1028). -/
inductive NvtsVal where
  | empty
  | sel (s : NvtsSel)
  deriving DecidableEq, Repr

/-- The `type` column of `OSPD_PARAMS` (wrapper.py:54-196); the other
columns (default, mandatory, description) are not read by `exec_scan`. -/
def ospdParamType : List (String × String) :=
  [("auto_enable_dependencies", "boolean"), ("cgi_path", "string"),
   ("checks_read_timeout", "integer"), ("drop_privileges", "boolean"),
   ("network_scan", "boolean"), ("non_simult_ports", "string"),
   ("open_sock_max_attempts", "integer"), ("timeout_retry", "integer"),
   ("optimize_test", "integer"), ("plugins_timeout", "integer"),
   ("report_host_details", "boolean"), ("safe_checks", "boolean"),
   ("scanner_plugins_timeout", "integer"), ("time_between_request", "integer"),
   ("unscanned_closed", "boolean"), ("unscanned_closed_udp", "boolean"),
   ("use_mac_addr", "boolean"), ("vhosts", "string"), ("vhosts_ip", "string")]

/-- `_from_bool_to_str` (wrapper.py:199-202). -/
def from_bool_to_str (value : PyVal) : String :=
  if value = .pint 1 then "yes" else "no"

/-- The scan-option preference records (wrapper.py:993-1001): options
whose `OSPD_PARAMS` type is boolean are rendered yes/no, everything
else with `str`. -/
def optionPrefs (options : List (String × PyVal)) : List String :=
  options.map fun kv =>
    let item_type := match List.lookup kv.1 ospdParamType with
      | some t => t
      | none => ""
    let val := if item_type = "boolean" then from_bool_to_str kv.2
               else pyToString kv.2
    kv.1 ++ "|||" ++ val

/-- Everything `exec_scan` reads from outside, fixed for one run: the
daemon flags and framework lookups (`get_scan_ports`, options,
credentials, `get_scan_vts`), the in-memory VT table, the index `kb_new`
hands out, the generated `uuid4` scan id, the store address and the feed
version used in log lines, whether `subprocess.Popen` succeeds, whether
the readiness handshake (wrapper.py:1073-1074) terminates, and the
polling-loop snapshots. -/
structure ScanEnv where
  pending_feed : Bool
  target : String
  ports : String
  options : List (String × PyVal)
  credentials : List (String × Cred)
  nvts : NvtsVal
  vts : List (String × Vt)
  main_kbindex : Nat
  openvas_scan_id : String
  db_address : String
  feed_version : String
  spawn_ok : Bool
  engine_leaves_new : Bool
  ticks : List TickEnv
  deriving DecidableEq, Repr

/-- The scanprefs records `exec_scan` writes before the VT-selection
step (wrapper.py:992-1024): scan options, the main kb index, the target,
the port range, and — only when the credential dict is non-empty — the
credential records. -/
def prefsBeforeVts (env : ScanEnv) : List String :=
  optionPrefs env.options ++
  ["ov_maindbid|||" ++ toString env.main_kbindex,
   "TARGET|||" ++ env.target,
   "port_range|||" ++ env.ports] ++
  (if env.credentials.isEmpty then []
   else build_credentials_as_prefs env.credentials)

/-- The three `add_scan_log` entries written just before the engine is
spawned (wrapper.py:1049-1059). -/
def preSpawnLogs (env : ScanEnv) : List (String × String) :=
  [("OpenVAS summary",
    "An OpenVAS Scanner was started for " ++ env.target ++ "."),
   ("KB location Found",
    "KB location path was found: " ++ env.db_address ++ "."),
   ("Feed Update", "Feed version: " ++ env.feed_version ++ ".")]

/-- `OSPDopenvas.exec_scan` (wrapper.py:959-1112) over an environment
describing its external reads.  `.ok none` models a run that never
returns (the readiness handshake or the polling loop does not exit
within the provided snapshots); `.error` an uncaught Python exception.
Note which paths release the main kb index: the empty-VT rejection
(wrapper.py:1041) and the normal exit (wrapper.py:1111) do; the
`OSError` spawn failure (wrapper.py:1066) and the stop exit
(wrapper.py:1082) return without releasing it. -/
def exec_scan (env : ScanEnv) : Except PyErr (Option ExecOutcome) :=
  if env.pending_feed then
    .ok (some { ret := .int 2,
                scan_errors := ["It was not possible to start the scan,because a pending feed update. Please try later"],
                scan_logs := [], allocated := false, spawned := false,
                main_releases := 0, aux_releases := 0, exit_kind := none,
                scanprefs := [] })
  else if env.ports = "" then
    .ok (some { ret := .int 2, scan_errors := ["No port list defined."],
                scan_logs := [], allocated := false, spawned := false,
                main_releases := 0, aux_releases := 0, exit_kind := none,
                scanprefs := [] })
  else
    match env.nvts with
    | .empty =>
      .ok (some { ret := .int 2, scan_errors := ["No VTS to run."],
                  scan_logs := [], allocated := true, spawned := false,
                  main_releases := 1, aux_releases := 0, exit_kind := none,
                  scanprefs := prefsBeforeVts env })
    | .sel sel =>
      match process_vts env.vts sel with
      | .error e => .error e
      | .ok out =>
        let prefs := prefsBeforeVts env ++
          ["plugin_set|||" ++ String.intercalate ";" out.vts_list] ++
          out.vts_params.map (fun p => p.1 ++ "|||" ++ p.2)
        if !env.spawn_ok then
          .ok (some { ret := .bool false, scan_errors := [],
                      scan_logs := preSpawnLogs env, allocated := true,
                      spawned := false, main_releases := 0, aux_releases := 0,
                      exit_kind := none, scanprefs := prefs })
        else if !env.engine_leaves_new then .ok none
        else
          match pollLoop env.openvas_scan_id env.main_kbindex false env.ticks with
          | (none, _) => .ok none
          | (some .stopped, aux) =>
            .ok (some { ret := .int 1, scan_errors := [],
                        scan_logs := preSpawnLogs env, allocated := true,
                        spawned := true, main_releases := 0,
                        aux_releases := aux, exit_kind := some .stopped,
                        scanprefs := prefs })
          | (some .finished, aux) =>
            .ok (some { ret := .int 1, scan_errors := [],
                        scan_logs := preSpawnLogs env, allocated := true,
                        spawned := true, main_releases := 1,
                        aux_releases := aux, exit_kind := some .finished,
                        scanprefs := prefs })

/-- Whether an `exec_scan` run reached a terminal outcome (returned). -/
def terminalOf : Except PyErr (Option ExecOutcome) → Bool
  | .ok (some _) => true
  | _ => false

/-- The outcome of a terminated `exec_scan` run, with an inert default
for the non-terminal cases. -/
def outcomeD : Except PyErr (Option ExecOutcome) → ExecOutcome
  | .ok (some o) => o
  | _ => { ret := .int 0, scan_errors := [], scan_logs := [], allocated := false,
           spawned := false, main_releases := 0, aux_releases := 0,
           exit_kind := none, scanprefs := [] }

/-- `main_releases` of a terminal run. -/
def mainReleasesOf : Except PyErr (Option ExecOutcome) → Option Nat
  | .ok (some o) => some o.main_releases
  | _ => none

/-- `allocated` of a terminal run. -/
def allocatedOf : Except PyErr (Option ExecOutcome) → Option Bool
  | .ok (some o) => some o.allocated
  | _ => none

/-- `spawned` of a terminal run. -/
def spawnedOf : Except PyErr (Option ExecOutcome) → Option Bool
  | .ok (some o) => some o.spawned
  | _ => none

/-- `ret` of a terminal run. -/
def retOf : Except PyErr (Option ExecOutcome) → Option PyRet
  | .ok (some o) => some o.ret
  | _ => none

/-- `scan_errors` of a terminal run. -/
def errorsOf : Except PyErr (Option ExecOutcome) → Option (List String)
  | .ok (some o) => some o.scan_errors
  | _ => none

/-- The OID list a request's VT selection resolves to (explicit OIDs
together with the group-filter resolution): none for the framework's
empty `''` selection, otherwise the `vts_list` `process_vts` computes
(`none` when `process_vts` raises). -/
def resolvedVts (vts : List (String × Vt)) : NvtsVal → Option (List String)
  | .empty => some []
  | .sel sel =>
    match process_vts vts sel with
    | .ok out => some out.vts_list
    | .error _ => none

/-- The result of `process_vts`, with an inert default when it raised. -/
def procOutD : Except PyErr ProcOut → ProcOut
  | .ok out => out
  | .error _ => ⟨[], [], []⟩

/-- An snmp credential entry used to evaluate the snmp record format. -/
def snmpCred : Cred :=
  { community := "public", username := "u", password := "p",
    auth_algorithm := "md5", privacy_password := "pp",
    privacy_algorithm := "aes" }

/-- C6: the spec's wire contract says every record produced by
`build_credentials_as_prefs` is a `name|||value` string, in particular
for the snmp service.  Evaluating the code at an snmp credential map
shows all six snmp records are emitted without the `|||` delimiter
(wrapper.py:938-955 concatenate `name:` directly with the value): the
claim is right about the intended protocol and the code is wrong. -/
theorem c6_snmp_missing_delimiter :
    build_credentials_as_prefs [("snmp", snmpCred)] =
      ["SNMP Authorization[password]:SNMP Community:public",
       "SNMP Authorization[entry]:SNMPv3 Username:u",
       "SNMP Authorization[password]:SNMPv3 Password:p",
       "SNMP Authorization[radio]:SNMPv3 Authentication Algorithm:md5",
       "SNMP Authorization[password]:SNMPv3 Privacy Password:pp",
       "SNMP Authorization[radio]:SNMPv3 Privacy Algorithm:aes"] ∧
    (build_credentials_as_prefs [("snmp", snmpCred)]).all
      (fun r => !hasTripleBar r) = true := by
  decide

/-- C7: for the credential map
`{"ssh": {"type": "up", "username": "root", "password": "x"}}` the
builder produces the login record
`SSH Authorization[entry]:SSH login name:|||root` and a password record
carrying `x`, and no record mentions an SSH private key or a key
passphrase. -/
theorem c7_ssh_up_example :
    build_credentials_as_prefs
        [("ssh", { type := "up", username := "root", password := "x" })] =
      ["auth_port_ssh|||",
       "SSH Authorization[entry]:SSH login name:|||root",
       "SSH Authorization[password]:SSH password (unsafe!):|||x"] ∧
    "SSH Authorization[entry]:SSH login name:|||root" ∈
      build_credentials_as_prefs
        [("ssh", { type := "up", username := "root", password := "x" })] ∧
    "SSH Authorization[password]:SSH password (unsafe!):|||x" ∈
      build_credentials_as_prefs
        [("ssh", { type := "up", username := "root", password := "x" })] ∧
    (build_credentials_as_prefs
        [("ssh", { type := "up", username := "root", password := "x" })]).all
      (fun r => !containsSeq "SSH private key".data r.data) = true ∧
    (build_credentials_as_prefs
        [("ssh", { type := "up", username := "root", password := "x" })]).all
      (fun r => !containsSeq "SSH key passphrase".data r.data) = true := by
  decide

/-- The records one credential entry contributes are those of the
singleton map (the builder handles entries independently). -/
theorem build_credentials_cons (p : String × Cred) (rest : List (String × Cred)) :
    build_credentials_as_prefs (p :: rest) =
      build_credentials_as_prefs [p] ++ build_credentials_as_prefs rest := by
  simp [build_credentials_as_prefs]

/-- An entry whose service key is not one of ssh/smb/esxi/snmp
contributes no records. -/
theorem build_credentials_unknown (p : String × Cred)
    (h : knownService p.1 = false) :
    build_credentials_as_prefs [p] = [] := by
  simp only [knownService, Bool.or_eq_false_iff, decide_eq_false_iff_not] at h
  obtain ⟨⟨⟨h1, h2⟩, h3⟩, h4⟩ := h
  simp [build_credentials_as_prefs, h1, h2, h3, h4]

/-- C8: a credential map whose service keys are all outside
ssh/smb/esxi/snmp builds the empty record list (and raises nothing: the
builder is total), and in any mixed map the entries under unknown
service keys contribute no records — the output equals that of the map
restricted to the known services. -/
theorem c8_unknown_services :
    (∀ credentials : List (String × Cred),
       (∀ p ∈ credentials, knownService p.1 = false) →
       build_credentials_as_prefs credentials = []) ∧
    (∀ credentials : List (String × Cred),
       build_credentials_as_prefs credentials =
         build_credentials_as_prefs
           (credentials.filter fun p => knownService p.1)) := by
  constructor
  · intro credentials h
    induction credentials with
    | nil => rfl
    | cons p rest ih =>
      rw [build_credentials_cons,
          build_credentials_unknown p (h p (List.mem_cons_self p rest)),
          ih (fun q hq => h q (List.mem_cons_of_mem p hq))]
      rfl
  · intro credentials
    induction credentials with
    | nil => rfl
    | cons p rest ih =>
      cases hk : knownService p.1 with
      | true =>
        rw [List.filter_cons_of_pos (by simp [hk]),
            build_credentials_cons p rest,
            build_credentials_cons p (rest.filter fun q => knownService q.1), ih]
      | false =>
        rw [List.filter_cons_of_neg (by simp [hk]),
            build_credentials_cons p rest, build_credentials_unknown p hk, ih]
        rfl

/-- C8 witness: a two-entry map with only unknown services builds no
records. -/
theorem c8_witness :
    build_credentials_as_prefs
      [("ftp", { username := "a" }), ("telnet", { password := "b" })] = [] :=
  c8_unknown_services.1
    [("ftp", { username := "a" }), ("telnet", { password := "b" })]
    (by decide)

/-- C9: for a progress message `launched/total` with nonzero total,
`update_progress` reports the launched/total plugin ratio as a
percentage divided by the host count of the target — for a single-host
target exactly `(launched/total)*100`. -/
theorem c9_update_progress (msg : String) (launched total : List Char)
    (l t : Nat)
    (hs : splitChar '/' msg.data = [launched, total])
    (hl : parseCounter launched = some l)
    (ht : parseCounter total = some t)
    (ht0 : t ≠ 0) :
    (∀ total_host : Nat, total_host ≠ 0 →
       update_progress msg total_host =
         .ok (some ((l : ℚ) / (t : ℚ) * 100 / (total_host : ℚ)))) ∧
    update_progress msg 1 = .ok (some ((l : ℚ) / (t : ℚ) * 100)) := by
  have key : ∀ th : Nat, th ≠ 0 →
      update_progress msg th =
        .ok (some ((l : ℚ) / (t : ℚ) * 100 / (th : ℚ))) := by
    intro th hth
    unfold update_progress
    rw [hs]
    simp [hl, ht, ht0, hth]
  refine ⟨key, ?_⟩
  rw [key 1 one_ne_zero]
  norm_num

/-- C9 witness: the message `5/10` on a single-host target yields
exactly `(5/10)*100` percent. -/
theorem c9_witness :
    update_progress "5/10" 1 = .ok (some ((5 : ℚ) / (10 : ℚ) * 100)) :=
  (c9_update_progress "5/10" ['5'] ['1', '0'] 5 10 (by decide) (by decide)
    (by decide) (by decide)).2

/-- C3: while at least one scan process is alive and the cached feed
version differs from the store's, a `check_feed` tick changes nothing
but the pending flag — the VT table is untouched — and performs the
`pending_feed = True` assignment exactly when the flag was not yet set;
a second tick under the same conditions does not set it again. -/
theorem c3_busy_stale_feed (s : FeedState)
    (hrun : s.scan_processes.any (fun b => b) = true)
    (hver : s.vts_version ≠ s.store.feed_version) :
    check_feed s = .ok ({ s with pending_feed := true }, !s.pending_feed) ∧
    check_feed { s with pending_feed := true } =
      .ok ({ s with pending_feed := true }, false) := by
  obtain ⟨procs, pf, vv, vts, st⟩ := s
  have hb : (vv != st.feed_version) = true := by
    simpa [bne_iff_ne] using hver
  simp only [List.any_eq_true] at hrun
  cases pf <;> simp [check_feed, hb, List.any_eq_true, hrun]

/-- A state with one live scan process and a stale cached version. -/
def fs3 : FeedState :=
  { scan_processes := [true], pending_feed := false, vts_version := "1",
    vts := [], store := { feed_version := "2", items := [] } }

/-- C3 witness: on a concrete busy-and-stale state the tick sets the
flag (writing it), leaves the table alone, and the next tick does not
write again. -/
theorem c3_witness :
    check_feed fs3 = .ok ({ fs3 with pending_feed := true }, !fs3.pending_feed) ∧
    check_feed { fs3 with pending_feed := true } =
      .ok ({ fs3 with pending_feed := true }, false) :=
  c3_busy_stale_feed fs3 (by decide) (by decide)

/-- `Except.bind` on a success. -/
theorem except_bind_ok {α β ε : Type} (x : α) (f : α → Except ε β) :
    (Except.ok x >>= f) = f x := rfl

/-- `Except.bind` propagates an error. -/
theorem except_bind_error {α β ε : Type} (e : ε) (f : α → Except ε β) :
    (Except.error e >>= f : Except ε β) = Except.error e := rfl

/-- Popping one key leaves the lookup of every other key unchanged. -/
theorem popKey_lookup_ne (k k2 : String) (h : k2 ≠ k) :
    ∀ (c c2 : List (String × String)) (v : String),
      popKey k c = some (v, c2) → List.lookup k2 c2 = List.lookup k2 c := by
  intro c
  induction c with
  | nil => intro c2 v hp; simp [popKey] at hp
  | cons a rest ih =>
    intro c2 v hp
    obtain ⟨ak, av⟩ := a
    simp only [popKey] at hp
    by_cases hak : ak = k
    · rw [if_pos hak] at hp
      simp only [Option.some.injEq, Prod.mk.injEq] at hp
      obtain ⟨-, rfl⟩ := hp
      have hne : (k2 == ak) = false := by
        subst hak
        simpa using h
      simp [List.lookup, hne]
    · rw [if_neg hak] at hp
      cases hrec : popKey k rest with
      | none => rw [hrec] at hp; simp at hp
      | some p2 =>
        obtain ⟨v2, rest2⟩ := p2
        rw [hrec] at hp
        simp only [Option.some.injEq, Prod.mk.injEq] at hp
        obtain ⟨-, rfl⟩ := hp
        simp [List.lookup, ih rest2 v2 hrec]

/-- The optional pop leaves the lookup of every other key unchanged. -/
theorem popOpt_lookup_ne (k k2 : String) (h : k2 ≠ k)
    (c : List (String × String)) :
    List.lookup k2 (popOpt k c).2 = List.lookup k2 c := by
  unfold popOpt
  cases hp : popKey k c with
  | none => simp
  | some p =>
    obtain ⟨v, c2⟩ := p
    simpa using popKey_lookup_ne k k2 h c c2 v hp

/-- A successful mandatory pop is a successful `popKey`. -/
theorem popReq_ok_popKey (k : String) (c : List (String × String))
    (v : String) (c2 : List (String × String))
    (h : popReq k c = .ok (v, c2)) : popKey k c = some (v, c2) := by
  unfold popReq at h
  cases hp : popKey k c with
  | none => rw [hp] at h; simp at h
  | some p =>
    rw [hp] at h
    simp only [Except.ok.injEq] at h
    rw [h]

/-- A successful mandatory pop leaves other keys' lookups unchanged. -/
theorem popReq_lookup_ne (k k2 : String) (h : k2 ≠ k)
    (c c2 : List (String × String)) (v : String)
    (hp : popReq k c = .ok (v, c2)) :
    List.lookup k2 c2 = List.lookup k2 c :=
  popKey_lookup_ne k k2 h c c2 v (popReq_ok_popKey k c v c2 hp)

/-- A VT whose custom metadata carries a `severity_type` key can never be
parsed: every pop performed before the check at wrapper.py:342 removes a
different key, so the check is reached with the key still present (and
then reads the undefined name `custom`), unless an earlier mandatory pop
already raised. -/
theorem parseStoreVt_severity_type (oids : List (String × String))
    (item : StoreVt)
    (h : (List.lookup "severity_type" item.custom).isSome = true) :
    ∃ e, parseStoreVt oids item = .error e := by
  unfold parseStoreVt
  cases h1 : popReq "name" item.custom with
  | error e => exact ⟨e, rfl⟩
  | ok p1 =>
    obtain ⟨v1, c1⟩ := p1
    simp only [except_bind_ok]
    have hc1 : (List.lookup "severity_type" c1).isSome = true := by
      rw [popReq_lookup_ne "name" "severity_type" (by decide) item.custom c1 v1 h1]
      exact h
    cases h2 : popReq "creation_date" c1 with
    | error e => exact ⟨e, rfl⟩
    | ok p2 =>
      obtain ⟨v2, c2⟩ := p2
      simp only [except_bind_ok]
      have hc2 : (List.lookup "severity_type" c2).isSome = true := by
        rw [popReq_lookup_ne "creation_date" "severity_type" (by decide) c1 c2 v2 h2]
        exact hc1
      cases h3 : popReq "last_modification" c2 with
      | error e => exact ⟨e, rfl⟩
      | ok p3 =>
        obtain ⟨v3, c3⟩ := p3
        simp only [except_bind_ok]
        have hc3 : (List.lookup "severity_type" c3).isSome = true := by
          rw [popReq_lookup_ne "last_modification" "severity_type" (by decide)
                c2 c3 v3 h3]
          exact hc2
        rcases h4 : popOpt "summary" c3 with ⟨v4, c4⟩
        have hc4 : (List.lookup "severity_type" c4).isSome = true := by
          have hx := popOpt_lookup_ne "summary" "severity_type" (by decide) c3
          rw [h4] at hx
          rw [← hx] at hc3
          exact hc3
        rcases h5 : popOpt "impact" c4 with ⟨v5, c5⟩
        have hc5 : (List.lookup "severity_type" c5).isSome = true := by
          have hx := popOpt_lookup_ne "impact" "severity_type" (by decide) c4
          rw [h5] at hx
          rw [← hx] at hc4
          exact hc4
        rcases h6 : popOpt "affected" c5 with ⟨v6, c6⟩
        have hc6 : (List.lookup "severity_type" c6).isSome = true := by
          have hx := popOpt_lookup_ne "affected" "severity_type" (by decide) c5
          rw [h6] at hx
          rw [← hx] at hc5
          exact hc5
        rcases h7 : popOpt "insight" c6 with ⟨v7, c7⟩
        have hc7 : (List.lookup "severity_type" c7).isSome = true := by
          have hx := popOpt_lookup_ne "insight" "severity_type" (by decide) c6
          rw [h7] at hx
          rw [← hx] at hc6
          exact hc6
        rcases h8 : popOpt "solution" c7 with ⟨v8, c8⟩
        have hc8 : (List.lookup "severity_type" c8).isSome = true := by
          have hx := popOpt_lookup_ne "solution" "severity_type" (by decide) c7
          rw [h8] at hx
          rw [← hx] at hc7
          exact hc7
        rcases h9 : (if v8.isSome then popOpt "solution_type" c8
                     else ((none : Option String), c8)) with ⟨v9, c9⟩
        have hc9 : (List.lookup "severity_type" c9).isSome = true := by
          have hx : List.lookup "severity_type"
              (if v8.isSome then popOpt "solution_type" c8
               else ((none : Option String), c8)).2 =
              List.lookup "severity_type" c8 := by
            split
            · exact popOpt_lookup_ne "solution_type" "severity_type" (by decide) c8
            · rfl
          rw [h9] at hx
          rw [← hx] at hc8
          exact hc8
        rcases h10 : popOpt "vuldetect" c9 with ⟨v10, c10⟩
        have hc10 : (List.lookup "severity_type" c10).isSome = true := by
          have hx := popOpt_lookup_ne "vuldetect" "severity_type" (by decide) c9
          rw [h10] at hx
          rw [← hx] at hc9
          exact hc9
        rcases h11 : popOpt "qod_type" c10 with ⟨v11, c11⟩
        have hc11 : (List.lookup "severity_type" c11).isSome = true := by
          have hx := popOpt_lookup_ne "qod_type" "severity_type" (by decide) c10
          rw [h11] at hx
          rw [← hx] at hc10
          exact hc10
        rcases h12 : (if v11.isSome then ((none : Option String), c11)
                      else popOpt "qod" c11) with ⟨v12, c12⟩
        have hc12 : (List.lookup "severity_type" c12).isSome = true := by
          have hx : List.lookup "severity_type"
              (if v11.isSome then ((none : Option String), c11)
               else popOpt "qod" c11).2 =
              List.lookup "severity_type" c11 := by
            split
            · rfl
            · exact popOpt_lookup_ne "qod" "severity_type" (by decide) c11
          rw [h12] at hx
          rw [← hx] at hc11
          exact hc11
        cases h13 : popKey "severity_base_vector" c12 with
        | some p13 =>
          obtain ⟨v13, c13⟩ := p13
          simp only [except_bind_ok]
          have hc13 : (List.lookup "severity_type" c13).isSome = true := by
            rw [popKey_lookup_ne "severity_base_vector" "severity_type"
                  (by decide) c12 c13 v13 h13]
            exact hc12
          exact ⟨PyErr.nameError, by simp [hc13]⟩
        | none =>
          cases h14 : popReq "cvss_base_vector" c12 with
          | error e => exact ⟨e, rfl⟩
          | ok p14 =>
            obtain ⟨v14, c14⟩ := p14
            simp only [except_bind_ok]
            have hc14 : (List.lookup "severity_type" c14).isSome = true := by
              rw [popReq_lookup_ne "cvss_base_vector" "severity_type"
                    (by decide) c12 c14 v14 h14]
              exact hc12
            exact ⟨PyErr.nameError, by simp [hc14]⟩

/-- If any enumerated VT's metadata carries `severity_type`, the bulk
loop aborts with an uncaught error. -/
theorem loadVtsItems_severity_type (oids : List (String × String)) :
    ∀ (items : List StoreVt) (vts0 : List (String × VtRecord)),
      (∃ item ∈ items, (List.lookup "severity_type" item.custom).isSome = true) →
      ∃ e, loadVtsItems oids vts0 items = .error e := by
  intro items
  induction items with
  | nil =>
    intro vts0 hw
    obtain ⟨item, hmem, -⟩ := hw
    exact absurd hmem (List.not_mem_nil item)
  | cons i rest ih =>
    intro vts0 hw
    cases hpi : parseStoreVt oids i with
    | error e => exact ⟨e, by simp only [loadVtsItems, hpi]; rfl⟩
    | ok r =>
      obtain ⟨item, hmem, hkey⟩ := hw
      rcases List.mem_cons.mp hmem with rfl | hmem2
      · obtain ⟨e, he⟩ := parseStoreVt_severity_type oids item hkey
        rw [hpi] at he
        simp at he
      · obtain ⟨e, he⟩ := ih (add_vt vts0 i.oid r).1 ⟨item, hmem2, hkey⟩
        exact ⟨e, by simp only [loadVtsItems, hpi, except_bind_ok]; exact he⟩

/-- C10: `load_vts` completes the bulk load only when no enumerated VT's
custom metadata carries the key `severity_type`; whenever some VT's
metadata carries it, the load aborts with an uncaught error (at that
entry the branch at wrapper.py:342-343 reads the undefined name
`custom`), instead of skipping the entry. -/
theorem c10_load_vts_severity_type :
    (∀ (vts0 : List (String × VtRecord)) (store : NvtiStore)
       (out : List (String × VtRecord) × String),
       load_vts vts0 store = .ok out →
       ∀ item ∈ store.items, List.lookup "severity_type" item.custom = none) ∧
    (∀ (vts0 : List (String × VtRecord)) (store : NvtiStore),
       (∃ item ∈ store.items,
          (List.lookup "severity_type" item.custom).isSome = true) →
       ∃ e, load_vts vts0 store = .error e) := by
  have abort : ∀ (vts0 : List (String × VtRecord)) (store : NvtiStore),
      (∃ item ∈ store.items,
         (List.lookup "severity_type" item.custom).isSome = true) →
      ∃ e, load_vts vts0 store = .error e := by
    intro vts0 store hw
    obtain ⟨e, he⟩ := loadVtsItems_severity_type
      (store.items.map fun i => (i.filename, i.oid)) store.items vts0 hw
    exact ⟨e, by simp [load_vts, he]⟩
  refine ⟨?_, abort⟩
  intro vts0 store out hok item hmem
  by_contra hne
  obtain ⟨e, he⟩ := abort vts0 store
    ⟨item, hmem, Option.isSome_iff_ne_none.mpr hne⟩
  rw [he] at hok
  simp at hok

/-- A store VT whose metadata carries `severity_type` (and is otherwise
well formed). -/
def itemC10 : StoreVt :=
  { filename := "filename:a.nasl", oid := "1.2.3",
    custom := [("name", "N"), ("creation_date", "c"),
               ("last_modification", "m"), ("cvss_base_vector", "AV:N"),
               ("severity_type", "cvss_base_v3")] }

/-- A one-VT store whose only VT carries `severity_type`. -/
def storeC10 : NvtiStore := { feed_version := "2", items := [itemC10] }

/-- C10 witness: on the concrete store above the bulk load aborts, and
evaluating it shows the abort is precisely the `NameError` of the
undefined-`custom` read. -/
theorem c10_witness :
    (∃ e, load_vts [] storeC10 = Except.error e) ∧
    load_vts [] storeC10 = Except.error PyErr.nameError :=
  ⟨c10_load_vts_severity_type.2 [] storeC10 ⟨itemC10, by decide, by decide⟩,
   by decide⟩

/-- Every parameter item of one VT contributes its `procParam` output to
a successful `procParams` run. -/
theorem procParams_mem (table : List (String × Vt)) (vtid nm : String) :
    ∀ (ps : List (String × PyVal)) (rs : List (String × String)) (ls : List PvLog),
      procParams table vtid nm ps = .ok (rs, ls) →
      ∀ (pid : String) (pval : PyVal), (pid, pval) ∈ ps →
      ∃ r1 l1, procParam table vtid nm pid pval = .ok (r1, l1) ∧
        (∀ x ∈ r1, x ∈ rs) ∧ (∀ x ∈ l1, x ∈ ls) := by
  intro ps
  induction ps with
  | nil => intro rs ls _ pid pval hmem; exact absurd hmem (List.not_mem_nil _)
  | cons q rest ih =>
    intro rs ls hok pid pval hmem
    obtain ⟨qid, qval⟩ := q
    cases hq : procParam table vtid nm qid qval with
    | error e =>
      simp only [procParams, hq, except_bind_error] at hok
      exact Except.noConfusion hok
    | ok p1 =>
      obtain ⟨a1, b1⟩ := p1
      cases hr : procParams table vtid nm rest with
      | error e =>
        simp only [procParams, hq, hr, except_bind_ok, except_bind_error] at hok
        exact Except.noConfusion hok
      | ok p2 =>
        obtain ⟨a2, b2⟩ := p2
        simp only [procParams, hq, hr, except_bind_ok, pure, Except.pure,
          Except.ok.injEq, Prod.mk.injEq] at hok
        obtain ⟨hrs, hls⟩ := hok
        subst hrs
        subst hls
        rcases List.mem_cons.mp hmem with heq | hmem2
        · cases heq
          exact ⟨a1, b1, hq,
            fun x hx => List.mem_append_left a2 hx,
            fun x hx => List.mem_append_left b2 hx⟩
        · obtain ⟨r1, l1, hp, hs1, hs2⟩ := ih a2 b2 hr pid pval hmem2
          exact ⟨r1, l1, hp,
            fun x hx => List.mem_append_right a1 (hs1 x hx),
            fun x hx => List.mem_append_right b1 (hs2 x hx)⟩

/-- Every selected VT of a successful `procVtsItems` run is in the table
and contributes its parameter output to the run's output. -/
theorem procVtsItems_mem (table : List (String × Vt)) :
    ∀ (l : List (String × List (String × PyVal))) (ids : List String)
      (rs : List (String × String)) (ls : List PvLog),
      procVtsItems table l = .ok (ids, rs, ls) →
      ∀ (vtid : String) (params : List (String × PyVal)), (vtid, params) ∈ l →
      ∃ vt, List.lookup vtid table = some vt ∧
        ∃ rs1 ls1, procParams table vtid vt.name params = .ok (rs1, ls1) ∧
          (∀ x ∈ rs1, x ∈ rs) ∧ (∀ x ∈ ls1, x ∈ ls) := by
  intro l
  induction l with
  | nil => intro ids rs ls _ vtid params hmem; exact absurd hmem (List.not_mem_nil _)
  | cons q rest ih =>
    intro ids rs ls hok vtid params hmem
    obtain ⟨qid, qparams⟩ := q
    cases hlk : List.lookup qid table with
    | none =>
      simp only [procVtsItems, hlk, except_bind_error] at hok
      exact Except.noConfusion hok
    | some vt =>
      cases hq : procParams table qid vt.name qparams with
      | error e =>
        simp only [procVtsItems, hlk, hq, except_bind_ok, except_bind_error] at hok
        exact Except.noConfusion hok
      | ok p1 =>
        obtain ⟨a1, b1⟩ := p1
        cases hr : procVtsItems table rest with
        | error e =>
          simp only [procVtsItems, hlk, hq, hr, except_bind_ok,
            except_bind_error] at hok
          exact Except.noConfusion hok
        | ok p2 =>
          obtain ⟨ids2, a2, b2⟩ := p2
          simp only [procVtsItems, hlk, hq, hr, except_bind_ok, pure,
            Except.pure, Except.ok.injEq, Prod.mk.injEq] at hok
          obtain ⟨hids, hrs, hls⟩ := hok
          subst hids
          subst hrs
          subst hls
          rcases List.mem_cons.mp hmem with heq | hmem2
          · cases heq
            exact ⟨vt, hlk, a1, b1, hq,
              fun x hx => List.mem_append_left a2 hx,
              fun x hx => List.mem_append_left b2 hx⟩
          · obtain ⟨vt2, hlk2, rs1, ls1, hp, hs1, hs2⟩ :=
              ih ids2 a2 b2 hr vtid params hmem2
            exact ⟨vt2, hlk2, rs1, ls1, hp,
              fun x hx => List.mem_append_right a1 (hs1 x hx),
              fun x hx => List.mem_append_right b1 (hs2 x hx)⟩

/-- A successful `process_vts` run contains a successful run of its
per-VT loop producing exactly the output's parameter and log lists. -/
theorem process_vts_ok_items (table : List (String × Vt)) (sel : NvtsSel)
    (out : ProcOut) (hok : process_vts table sel = .ok out) :
    ∃ ids, procVtsItems table sel.vts = .ok (ids, out.vts_params, out.logs) := by
  unfold process_vts at hok
  by_cases hg : sel.vt_groups.isEmpty
  · simp only [if_pos hg] at hok
    cases hpi : procVtsItems table sel.vts with
    | error e =>
      simp only [pure, Except.pure, except_bind_ok, hpi, except_bind_error] at hok
      exact Except.noConfusion hok
    | ok p =>
      obtain ⟨ids, rs, ls⟩ := p
      simp only [pure, Except.pure, except_bind_ok, hpi, Except.ok.injEq] at hok
      subst hok
      exact ⟨ids, rfl⟩
  · simp only [if_neg hg] at hok
    cases hbase : get_vts_in_groups table sel.vt_groups with
    | error e =>
      rw [hbase] at hok
      simp only [except_bind_error] at hok
      exact Except.noConfusion hok
    | ok base =>
      rw [hbase] at hok
      simp only [except_bind_ok] at hok
      cases hpi : procVtsItems table sel.vts with
      | error e =>
        simp only [hpi, except_bind_error] at hok
        exact Except.noConfusion hok
      | ok p =>
        obtain ⟨ids, rs, ls⟩ := p
        simp only [pure, Except.pure, except_bind_ok, hpi, Except.ok.injEq] at hok
        subst hok
        exact ⟨ids, rfl⟩

/-- C5 (amended): `check_param_type` accepts a value exactly when the
type is one of entry/file/password/radio/sshlogin and the value is a
string, or the type is checkbox and the value is literally yes/no, or
the type is integer and the value parses as an integer.  `process_vts`,
however, checks a parameter named `timeout` against `integer` instead of
its declared type (wrapper.py:872-875), and skips parameters whose
looked-up type is empty; every checked declared parameter is emitted
regardless of the outcome, and the mismatch log is emitted exactly for
failures of the check actually applied. -/
theorem c5_amended :
    (∀ (v : PyVal) (t : String),
       check_param_type v t = none ↔
         ((t = "entry" ∨ t = "file" ∨ t = "password" ∨ t = "radio" ∨
           t = "sshlogin") ∧ v.isStr = true) ∨
         (t = "checkbox" ∧ (v = .pstr "yes" ∨ v = .pstr "no")) ∨
         (t = "integer" ∧ pyIntOk v = true)) ∧
    (∀ (table : List (String × Vt)) (sel : NvtsSel) (out : ProcOut)
       (vtid : String) (params : List (String × PyVal)) (pid : String)
       (pval : PyVal) (vt : Vt) (pd : VtParam),
       process_vts table sel = .ok out →
       (vtid, params) ∈ sel.vts →
       (pid, pval) ∈ params →
       List.lookup vtid table = some vt →
       List.lookup pid vt.vt_params = some pd →
       pd.ptype ≠ "" →
       ((vt.name ++ "[" ++ pd.ptype ++ "]:" ++ pid, pyToString pval) ∈
          out.vts_params ∧
        (check_param_type pval
            (if pid = "timeout" then "integer" else pd.ptype) = some 1 →
          PvLog.typeMismatch (if pid = "timeout" then "integer" else pd.ptype)
            (pyToString pval) ∈ out.logs))) := by
  constructor
  · intro v t
    unfold check_param_type
    split_ifs with h1 h2 h3 h4
    · simpa using Or.inl h1
    · simpa using Or.inr (Or.inl h2)
    · simpa using Or.inr (Or.inr ⟨h3, h4⟩)
    · subst h3
      constructor
      · intro hx; simp at hx
      · rintro (hA | hB | hC)
        · exact absurd hA h1
        · exact absurd hB h2
        · exact absurd hC.2 h4
    · constructor
      · intro hx; simp at hx
      · rintro (hA | hB | hC)
        · exact absurd hA h1
        · exact absurd hB h2
        · exact absurd hC.1 h3
  · intro table sel out vtid params pid pval vt pd hok hmemv hmemp hlk hpd hne
    obtain ⟨ids, hpi⟩ := process_vts_ok_items table sel out hok
    obtain ⟨vt2, hlk2, rs1, ls1, hpp, hs1, hs2⟩ :=
      procVtsItems_mem table sel.vts ids out.vts_params out.logs hpi
        vtid params hmemv
    rw [hlk] at hlk2
    obtain rfl : vt = vt2 := by
      cases hlk2
      rfl
    obtain ⟨r1, l1, hp1, ht1, ht2⟩ :=
      procParams_mem table vtid vt.name params rs1 ls1 hpp pid pval hmemp
    have hgt : get_vt_param_type table vtid pid = .ok (some pd.ptype) := by
      simp only [get_vt_param_type, hlk, hpd]
    rw [procParam, hgt] at hp1
    simp only [except_bind_ok] at hp1
    rw [if_neg hne] at hp1
    constructor
    · have hr1 : (vt.name ++ "[" ++ pd.ptype ++ "]:" ++ pid,
          pyToString pval) ∈ r1 := by
        cases hcc : check_param_type pval
            (if pid = "timeout" then "integer" else pd.ptype) with
        | none =>
          rw [hcc] at hp1
          simp only [pure, Except.pure, Except.ok.injEq, Prod.mk.injEq] at hp1
          rw [← hp1.1]
          exact List.mem_singleton.mpr rfl
        | some n =>
          rw [hcc] at hp1
          simp only [pure, Except.pure, Except.ok.injEq, Prod.mk.injEq] at hp1
          rw [← hp1.1]
          exact List.mem_singleton.mpr rfl
      exact hs1 _ (ht1 _ hr1)
    · intro hfail
      have hl1 : PvLog.typeMismatch
          (if pid = "timeout" then "integer" else pd.ptype)
          (pyToString pval) ∈ l1 := by
        rw [hfail] at hp1
        simp only [pure, Except.pure, Except.ok.injEq, Prod.mk.injEq] at hp1
        rw [← hp1.2]
        exact List.mem_singleton.mpr rfl
      exact hs2 _ (ht2 _ hl1)

/-- A table whose one VT declares a parameter named `timeout` of type
checkbox. -/
def tableC5 : List (String × Vt) :=
  [("o1", { name := "n", vt_params := [("timeout", { ptype := "checkbox" })] })]

/-- A selection passing the string `5` for that `timeout` parameter. -/
def selC5 : NvtsSel := { vt_groups := [], vts := [("o1", [("timeout", .pstr "5")])] }

/-- C5 counterexample: the value `5` fails the declared checkbox check,
yet `process_vts` emits the parameter record with an empty log list —
the failure is not logged, because a parameter named `timeout` is
checked as integer (wrapper.py:872-873) and `5` parses as one.  This
refutes the claim that every declared parameter whose value fails the
declared-type check is logged. -/
theorem c5_counterexample :
    check_param_type (.pstr "5") "checkbox" = some 1 ∧
    process_vts tableC5 selC5 =
      .ok { vts_list := ["o1"], vts_params := [("n[checkbox]:timeout", "5")],
            logs := [] } := by
  decide

/-- A table whose one VT declares an integer parameter, and a selection
passing the non-numeric string `abc` for it. -/
def tableC5w : List (String × Vt) :=
  [("o1", { name := "W", vt_params := [("p1", { ptype := "integer" })] })]

/-- The selection for the C5 witness. -/
def selC5w : NvtsSel := { vt_groups := [], vts := [("o1", [("p1", .pstr "abc")])] }

/-- C5 witness: a declared integer parameter with the failing value
`abc` is both emitted and logged. -/
theorem c5_witness :
    ("W[integer]:p1", "abc") ∈ (procOutD (process_vts tableC5w selC5w)).vts_params ∧
    PvLog.typeMismatch "integer" "abc" ∈ (procOutD (process_vts tableC5w selC5w)).logs := by
  have h := c5_amended.2 tableC5w selC5w (procOutD (process_vts tableC5w selC5w))
    "o1" [("p1", PyVal.pstr "abc")] "p1" (PyVal.pstr "abc")
    { name := "W", vt_params := [("p1", { ptype := "integer" })] }
    { ptype := "integer" }
    (by decide) (by decide) (by decide) (by decide) (by decide) (by decide)
  exact ⟨h.1, h.2 (by decide)⟩

/-- C1 (amended): once `exec_scan` has allocated a session index, the
main kb index is released exactly once on the normal-finish exit and on
the empty-VT rejection, but zero times within `exec_scan` on the
client-stop exit (wrapper.py:1082 returns before the release; the
release is left to the separate `stop_scan` handler) and zero times on
an engine spawn failure (wrapper.py:1066 returns `False` without any
release, leaking the index). -/
theorem c1_amended (env : ScanEnv) (o : ExecOutcome)
    (h : exec_scan env = .ok (some o)) (ha : o.allocated = true) :
    (o.exit_kind = some .finished → o.main_releases = 1) ∧
    (o.ret = .int 2 → o.main_releases = 1) ∧
    (o.exit_kind = some .stopped → o.main_releases = 0) ∧
    (o.ret = .bool false → o.main_releases = 0) := by
  simp only [exec_scan] at h
  split at h
  · rw [Except.ok.injEq, Option.some.injEq] at h
    subst h
    simp at ha
  · split at h
    · rw [Except.ok.injEq, Option.some.injEq] at h
      subst h
      simp at ha
    · split at h
      · rw [Except.ok.injEq, Option.some.injEq] at h
        subst h
        simp
      · split at h
        · exact Except.noConfusion h
        · split at h
          · rw [Except.ok.injEq, Option.some.injEq] at h
            subst h
            simp
          · split at h
            · simp at h
            · split at h
              · simp at h
              · rw [Except.ok.injEq, Option.some.injEq] at h
                subst h
                simp
              · rw [Except.ok.injEq, Option.some.injEq] at h
                subst h
                simp

/-- A VT table entry used by the concrete `exec_scan` environments. -/
def vtA : Vt := { name := "VT A", custom := [("family", "fam1")],
                  vt_params := [("p1", { ptype := "entry" })] }

/-- A run in which everything is in place but `subprocess.Popen` raises
`OSError`. -/
def envC1 : ScanEnv :=
  { pending_feed := false, target := "10.0.0.1", ports := "80,443",
    options := [], credentials := [],
    nvts := .sel { vt_groups := [], vts := [("oidA", [])] },
    vts := [("oidA", vtA)], main_kbindex := 4, openvas_scan_id := "uuid-1",
    db_address := "/tmp/redis.sock", feed_version := "2019.1",
    spawn_ok := false, engine_leaves_new := true, ticks := [] }

/-- C1 counterexample: on the spawn-failure run the scan reaches a
terminal outcome (`return False`, wrapper.py:1066) with the session
index allocated, yet the main kb index is released zero times — not
exactly once as the claim states. -/
theorem c1_counterexample :
    terminalOf (exec_scan envC1) = true ∧
    allocatedOf (exec_scan envC1) = some true ∧
    mainReleasesOf (exec_scan envC1) = some 0 ∧
    mainReleasesOf (exec_scan envC1) ≠ some 1 := by
  decide

/-- The spawn-success variant of `envC1`, with a polling trace in which
the engine's one auxiliary kb finishes and the next sweep finds no kb
left. -/
def envC1w : ScanEnv :=
  { envC1 with spawn_ok := true,
               ticks := [⟨false, [⟨5, "uuid-1", true⟩]⟩, ⟨false, []⟩] }

/-- C1 witness: on the concrete normal-finish run the main index is
released exactly once. -/
theorem c1_witness :
    exec_scan envC1w = Except.ok (some (outcomeD (exec_scan envC1w))) ∧
    ((outcomeD (exec_scan envC1w)).exit_kind = some LoopExit.finished →
      (outcomeD (exec_scan envC1w)).main_releases = 1) :=
  ⟨by decide,
   (c1_amended envC1w (outcomeD (exec_scan envC1w)) (by decide) (by decide)).1⟩

/-- C2 (amended): `exec_scan` records the `No VTS to run.` scan error,
releases the allocated session index and returns the soft-failure code 2
without spawning the engine exactly when the VT selection is the
framework's empty value `''` (wrapper.py:1028 compares `nvts != ''`); a
non-empty selection that merely resolves to zero OIDs instead proceeds
to spawn the engine with an empty `plugin_set` record. -/
theorem c2_amended (env : ScanEnv) (h1 : env.pending_feed = false)
    (h2 : env.ports ≠ "") (h3 : env.nvts = .empty) :
    exec_scan env =
      .ok (some { ret := .int 2, scan_errors := ["No VTS to run."],
                  scan_logs := [], allocated := true, spawned := false,
                  main_releases := 1, aux_releases := 0, exit_kind := none,
                  scanprefs := prefsBeforeVts env }) := by
  simp only [exec_scan, h1, h3, Bool.false_eq_true, if_false, if_neg h2]

/-- A run whose VT selection is non-empty but resolves to zero OIDs: a
group filter naming a family no VT belongs to, and no explicit OIDs. -/
def envC2 : ScanEnv :=
  { envC1 with nvts := .sel { vt_groups := ["family=missing"], vts := [] },
               spawn_ok := true, ticks := [⟨false, []⟩, ⟨false, []⟩] }

/-- C2 counterexample: this request's VT selection resolves to the empty
OID list, yet `exec_scan` spawns the engine, records no scan error, and
returns 1, writing a `plugin_set|||` record with an empty OID list —
not the claimed rejection. -/
theorem c2_counterexample :
    resolvedVts envC2.vts envC2.nvts = some [] ∧
    spawnedOf (exec_scan envC2) = some true ∧
    errorsOf (exec_scan envC2) = some [] ∧
    retOf (exec_scan envC2) = some (.int 1) ∧
    mainReleasesOf (exec_scan envC2) = some 1 := by
  decide

/-- The empty-selection variant of `envC1`. -/
def envC2w : ScanEnv := { envC1 with nvts := .empty }

/-- C2 witness: on the concrete empty-selection run the scan is rejected
with `No VTS to run.`, the index released, code 2 returned, nothing
spawned. -/
theorem c2_witness :
    exec_scan envC2w =
      .ok (some { ret := .int 2, scan_errors := ["No VTS to run."],
                  scan_logs := [], allocated := true, spawned := false,
                  main_releases := 1, aux_releases := 0, exit_kind := none,
                  scanprefs := prefsBeforeVts envC2w }) :=
  c2_amended envC2w rfl (by decide) rfl

/-- C4: when a feed reload is pending, or no ports resolve for the
target, `exec_scan` records the corresponding scan-level error entry and
returns the soft-failure code 2 before `kb_new` allocates any session
index and before any engine process is spawned
(wrapper.py:961-975). -/
theorem c4_early_rejections (env : ScanEnv) :
    (env.pending_feed = true →
       exec_scan env =
         .ok (some { ret := .int 2,
                     scan_errors := ["It was not possible to start the scan,because a pending feed update. Please try later"],
                     scan_logs := [], allocated := false, spawned := false,
                     main_releases := 0, aux_releases := 0, exit_kind := none,
                     scanprefs := [] })) ∧
    (env.pending_feed = false → env.ports = "" →
       exec_scan env =
         .ok (some { ret := .int 2, scan_errors := ["No port list defined."],
                     scan_logs := [], allocated := false, spawned := false,
                     main_releases := 0, aux_releases := 0, exit_kind := none,
                     scanprefs := [] })) := by
  constructor
  · intro h
    simp only [exec_scan, h, if_true]
  · intro h1 h2
    simp only [exec_scan, h1, h2, Bool.false_eq_true, if_false]
    exact if_pos trivial

/-- The pending-feed variant of `envC1`. -/
def envC4a : ScanEnv := { envC1 with pending_feed := true }

/-- The empty-ports variant of `envC1`. -/
def envC4b : ScanEnv := { envC1 with ports := "" }

/-- C4 witness: both rejections evaluated on concrete runs. -/
theorem c4_witness :
    exec_scan envC4a =
      .ok (some { ret := .int 2,
                  scan_errors := ["It was not possible to start the scan,because a pending feed update. Please try later"],
                  scan_logs := [], allocated := false, spawned := false,
                  main_releases := 0, aux_releases := 0, exit_kind := none,
                  scanprefs := [] }) ∧
    exec_scan envC4b =
      .ok (some { ret := .int 2, scan_errors := ["No port list defined."],
                  scan_logs := [], allocated := false, spawned := false,
                  main_releases := 0, aux_releases := 0, exit_kind := none,
                  scanprefs := [] }) :=
  ⟨(c4_early_rejections envC4a).1 rfl, (c4_early_rejections envC4b).2 rfl rfl⟩
